import Mathlib

/-!
Verification of the conversation turn controller of `src/chat-with-review.py`
(`main`, `define_system_prompt` and the helper logic they use).

The controller state visible across UI refresh cycles is the Streamlit
session key `messages` (a list of role-tagged message dictionaries).  Each
cycle receives the chat-input string (possibly absent), the list of files
currently selected in the uploader, and the behaviour of the two external
collaborators: the Prompt Formatter (`chat_model.format_prompt`) and the
Model Client (`generate_response`), both modelled as function parameters.
The File Context Builder (`process_uploaded_files`, `libs/file_utils.py`)
is not part of the sources, so it is modelled from the spec's contract.
-/

namespace ChatReview

/-- Message roles occurring in the program: the code only ever creates
`"user"` and `"assistant"` messages. -/
inductive Role where
  | user
  | assistant
deriving DecidableEq, Repr

/-- A content item as produced by the File Context Builder and consumed by
the loop at lines 132-138: a dict with `type` either `text` (carrying a
`text` string) or an image item (carrying its file id and payload). -/
inductive ContentItem where
  | text (s : String)
  | image (id : Nat) (payload : String)
deriving DecidableEq, Repr

/-- The `content` value of a message dict: user messages store the list of
formatted content parts (`formatted_prompt`), the greeting and assistant
messages store a plain string. -/
inductive MsgContent where
  | parts (l : List ContentItem)
  | text (s : String)
deriving DecidableEq, Repr

/-- One entry of `st.session_state.messages`.  `images = none` models a dict
without an `"images"` key; `images = some l` models `"images": l`. -/
structure Msg where
  role : Role
  content : MsgContent
  images : Option (List Nat) := none
deriving DecidableEq, Repr

/-- An uploaded file, reduced to what the controller can observe: its opaque
identifier and the content item the File Context Builder extracts from it. -/
structure UploadedFile where
  id : Nat
  item : ContentItem
deriving DecidableEq, Repr

/-- `INIT_MESSAGE` (lines 18-21): the assistant greeting seeding the
transcript at session start (line 106). -/
def INIT_MESSAGE : Msg :=
  { role := Role.assistant
    content := MsgContent.text "안녕하세요! 저는 Bedrock AI 기반 리뷰 분석 챗봇입니다. 무엇을 도와드릴까요?"
    images := none }

/-- Line 106: `st.session_state.messages = [INIT_MESSAGE]`. -/
def initMessages : List Msg := [INIT_MESSAGE]

/-- The contribution of one message to `message_images_list` (lines 115-122):
its `images` list when the message is a user message whose `"images"` key is
present and truthy (non-empty), nothing otherwise. -/
def userImages (m : Msg) : List Nat :=
  match m.images with
  | some l => if m.role = Role.user ∧ l ≠ [] then l else []
  | none => []

/-- Lines 114-122: the list comprehension collecting, in transcript order,
every image id recorded in a user message (`"Images already processed"`). -/
def messageImagesList : List Msg → List Nat
  | [] => []
  | m :: rest => userImages m ++ messageImagesList rest

/-- Modelled from the spec: the File Context Builder
`process_uploaded_files` (`libs/file_utils.py`, imported at line 12 but not
present under `src/`).  Per the contract it processes exactly the files whose
id is not in `alreadyProcessedIds`, preserves input order in its output, and
fills `uploaded_file_ids` with the identifiers of the files it processed so
they can be marked in the ProcessedFileSet.  Returns
`(content_files, uploaded_file_ids)`. -/
def process_uploaded_files (files : List UploadedFile) (alreadyProcessedIds : List Nat) :
    List ContentItem × List Nat :=
  let unprocessed := files.filter fun f => !(alreadyProcessedIds.contains f.id)
  (unprocessed.map (fun f => f.item), unprocessed.map (fun f => f.id))

/-- Lines 132-138: the loop that splits `content_files` into the accumulated
`context_text` (text items, each followed by `"\n\n"`) and the `context_image`
list (every non-text item, appended in order). -/
def partitionLoop : List ContentItem → String → List ContentItem → String × List ContentItem
  | [], context_text, context_image => (context_text, context_image)
  | ContentItem.text s :: rest, context_text, context_image =>
      partitionLoop rest (context_text ++ s ++ "\n\n") context_image
  | ContentItem.image i p :: rest, context_text, context_image =>
      partitionLoop rest context_text (context_image ++ [ContentItem.image i p])

/-- Lines 132-138 with the initial accumulators `context_text = ""`,
`context_image = []`. -/
def partitionContent (content_files : List ContentItem) : String × List ContentItem :=
  partitionLoop content_files "" []

/-- Lines 140-143: the effective input string.  Note the literal
`"Here is some context for you: \n..."` of line 141 contains a space between
the colon and the newline. -/
def promptNew (context_text : String) (prompt : String) : String :=
  if context_text ≠ "" then
    "Here is some context for you: \n<context>\n" ++ context_text ++ "</context>\n\n" ++ prompt
  else
    prompt

/-- Python truthiness of the `st.chat_input()` result: `None` and the empty
string are falsy (`if prompt:` at lines 131 and 151). -/
def promptTruthy : Option String → Bool
  | none => false
  | some s => !s.isEmpty

/-- Everything a cycle of `main` (lines 108-167) does that the claims
observe.  `preDispatch` is the transcript after lines 114-155 (spec steps
1-4), before the dispatch test of line 161.  `builderArgs` records the
arguments of the `process_uploaded_files` call when line 127 runs.
`effectiveInput` is the string handed to `chat_model.format_prompt` this
cycle, `formattedPrompt` the local `formatted_prompt` if it was assigned this
cycle.  `modelCalls` counts invocations of `generate_response`;
`modelFailed` records that the invocation raised; `crashed` records a Python
error in the cycle itself (UnboundLocalError on `formatted_prompt` at line
164, or IndexError on `messages[-1]` at line 161). -/
structure CycleOutput where
  messages : List Msg
  preDispatch : List Msg
  builderArgs : Option (List UploadedFile × List Nat)
  effectiveInput : Option String
  formattedPrompt : Option (List ContentItem)
  dispatched : Bool
  modelCalls : Nat
  crashed : Bool
  modelFailed : Bool
deriving Repr

/-- Lines 114-155 of `main` (spec steps 1-4): the transcript after the user
branch, the arguments of the `process_uploaded_files` call if it ran, the
string handed to `chat_model.format_prompt` if any, and the local
`formatted_prompt` if it was assigned this cycle. -/
def cycleSteps (fmt : String → List ContentItem) (msgs : List Msg) (prompt : Option String)
    (files : List UploadedFile) :
    List Msg × Option (List UploadedFile × List Nat) × Option String × Option (List ContentItem) :=
  let message_images_list := messageImagesList msgs
  if files ≠ [] ∧ message_images_list.length < files.length then
      -- line 125 guard: `uploaded_files and len(message_images_list) < len(uploaded_files)`
      let res := process_uploaded_files files message_images_list
      let content_files := res.1
      let uploaded_file_ids := res.2
      if promptTruthy prompt then
        let p := prompt.getD ""
        let pc := partitionContent content_files
        let context_text := pc.1
        let context_image := pc.2
        let prompt_new := promptNew context_text p
        let formatted_prompt := fmt prompt_new ++ context_image
        (msgs ++ [{ role := Role.user, content := MsgContent.parts formatted_prompt,
                    images := some uploaded_file_ids }],
         some (files, message_images_list), some prompt_new, some formatted_prompt)
      else
        (msgs, some (files, message_images_list), none, none)
    else if promptTruthy prompt then
      -- lines 151-155
      let p := prompt.getD ""
      let formatted_prompt := fmt p
      (msgs ++ [{ role := Role.user, content := MsgContent.parts formatted_prompt,
                  images := none }],
       none, some p, some formatted_prompt)
    else
      (msgs, none, none, none)

/-- Lines 161-167 of `main`: the dispatch rule, applied to the result of
`cycleSteps`.  `respond` is `generate_response`; `none` models a raised
provider/stream error. -/
def dispatch (respond : List ContentItem → Option String)
    (step : List Msg × Option (List UploadedFile × List Nat) × Option String ×
      Option (List ContentItem)) : CycleOutput :=
  let msgs1 := step.1
  let bargs := step.2.1
  let eff := step.2.2.1
  let fp := step.2.2.2
  match msgs1.getLast? with
  | none =>
      -- `messages[-1]` on an empty list raises IndexError
      { messages := msgs1, preDispatch := msgs1, builderArgs := bargs, effectiveInput := eff,
        formattedPrompt := fp, dispatched := false, modelCalls := 0, crashed := true,
        modelFailed := false }
  | some last =>
      if last.role ≠ Role.assistant then
        match fp with
        | none =>
            -- `formatted_prompt` was not assigned this cycle: line 164 raises
            -- UnboundLocalError before `generate_response` is called
            { messages := msgs1, preDispatch := msgs1, builderArgs := bargs,
              effectiveInput := eff, formattedPrompt := fp, dispatched := true,
              modelCalls := 0, crashed := true, modelFailed := false }
        | some f =>
            match respond f with
            | none =>
                -- the invocation raised; the exception propagates, the appended
                -- user message stays in `st.session_state.messages`
                { messages := msgs1, preDispatch := msgs1, builderArgs := bargs,
                  effectiveInput := eff, formattedPrompt := fp, dispatched := true,
                  modelCalls := 1, crashed := false, modelFailed := true }
            | some r =>
                { messages := msgs1 ++ [{ role := Role.assistant,
                                          content := MsgContent.text r, images := none }],
                  preDispatch := msgs1, builderArgs := bargs, effectiveInput := eff,
                  formattedPrompt := fp, dispatched := true, modelCalls := 1,
                  crashed := false, modelFailed := false }
      else
        { messages := msgs1, preDispatch := msgs1, builderArgs := bargs, effectiveInput := eff,
          formattedPrompt := fp, dispatched := false, modelCalls := 0, crashed := false,
          modelFailed := false }

/-- One UI refresh cycle of `main` (lines 108-167), parametrised by the
Prompt Formatter `fmt` (`chat_model.format_prompt`) and the Model Client
`respond` (`generate_response`).  `msgs` is `st.session_state.messages` at
cycle start, `prompt` the `st.chat_input()` result, `files` the uploader
selection. -/
def runCycle (fmt : String → List ContentItem) (respond : List ContentItem → Option String)
    (msgs : List Msg) (prompt : Option String) (files : List UploadedFile) : CycleOutput :=
  dispatch respond (cycleSteps fmt msgs prompt files)

/-- The per-cycle inputs of a rerun of `main`: chat input, uploader
selection, and the Model Client behaviour during that cycle. -/
structure CycleInput where
  prompt : Option String
  files : List UploadedFile
  respond : List ContentItem → Option String

/-- Iterate `runCycle` over a sequence of UI refresh cycles, threading
`st.session_state.messages`. -/
def runCycles (fmt : String → List ContentItem) (msgs : List Msg) : List CycleInput → List Msg
  | [] => msgs
  | i :: rest => runCycles fmt (runCycle fmt i.respond msgs i.prompt i.files).messages rest

/-- `define_system_prompt` (lines 35-52), with the radio selection as
argument; the string literals reproduce the Python triple-quoted strings
byte for byte (including indentation and trailing spaces). -/
def define_system_prompt (radio_option : String) : String :=
  if radio_option = "Summarize" then
    "Provide a summary of the reviews in a natural, conversational style within 3 sentences, as if it were a user review without annotation. \n        Please avoid listing features, and instead, integrate the key selling points naturally into the narrative."
  else if radio_option = "Analyze" then
    "Analyze the pros and cons of the product based on the reviews, and present them in bullet points.\n        Also identify the sentiment of the given reviews by identifying the positive and negative keywords used. \n        Calculate and present the ratio of positive to negative keywords. Answer in Korean."
  else if radio_option = "Recommend" then
    "Extract the typical 'Time', 'Place', 'Occasion', and 'Recommended for' when the product is used or consumed.\n        Please extract the most diverse set of high-frequency keywords from the text\n        Answer in Korean."
  else
    ""

/-- Line 36: the options offered by `st.radio`. -/
def radioOptions : List String := ["Summarize", "Analyze", "Recommend"]

/-- Number of assistant entries in a transcript. -/
def assistantCount : List Msg → Nat
  | [] => 0
  | m :: rest => (if m.role = Role.assistant then 1 else 0) + assistantCount rest

/-- Role of the last transcript entry, if any. -/
def lastRole (msgs : List Msg) : Option Role :=
  msgs.getLast?.map Msg.role

/-- Spec-side description of the text half of the partition (spec §4 step
2b): the text payloads in order, each followed by a blank line. -/
def contextTextSpec : List ContentItem → String
  | [] => ""
  | ContentItem.text s :: rest => s ++ "\n\n" ++ contextTextSpec rest
  | ContentItem.image _ _ :: rest => contextTextSpec rest

/-- Spec-side description of the image half of the partition (spec §4 step
2b): the subsequence of non-text items, order preserved. -/
def contextImagesSpec (items : List ContentItem) : List ContentItem :=
  items.filter fun i =>
    match i with
    | ContentItem.text _ => false
    | ContentItem.image _ _ => true

/-- A sample Prompt Formatter for concrete evaluations: one text part
holding the input. -/
def fmtSample : String → List ContentItem := fun s => [ContentItem.text s]

/-- A sample Model Client that always succeeds. -/
def respondOk : List ContentItem → Option String := fun _ => some "ok"

/-- A sample Model Client whose invocation always fails. -/
def respondFail : List ContentItem → Option String := fun _ => none

/-- The guard of line 125: `uploaded_files and len(message_images_list) < len(uploaded_files)`. -/
def guardHolds (msgs : List Msg) (files : List UploadedFile) : Prop :=
  files ≠ [] ∧ (messageImagesList msgs).length < files.length

instance (msgs : List Msg) (files : List UploadedFile) : Decidable (guardHolds msgs files) := by
  unfold guardHolds; infer_instance

/-- Abbreviation: the `(content_files, uploaded_file_ids)` pair the builder
returns in a cycle starting from `msgs` with selection `files` (line 127). -/
def builderOut (msgs : List Msg) (files : List UploadedFile) : List ContentItem × List Nat :=
  process_uploaded_files files (messageImagesList msgs)

/-- Abbreviation: the `(context_text, context_image)` pair of lines 132-138. -/
def contextOf (msgs : List Msg) (files : List UploadedFile) : String × List ContentItem :=
  partitionContent (builderOut msgs files).1

/-- Abbreviation: `prompt_new` of lines 140-143. -/
def effOf (msgs : List Msg) (files : List UploadedFile) (p : String) : String :=
  promptNew (contextOf msgs files).1 p

/-- Abbreviation: `formatted_prompt` of line 145. -/
def fpOf (fmt : String → List ContentItem) (msgs : List Msg) (files : List UploadedFile)
    (p : String) : List ContentItem :=
  fmt (effOf msgs files p) ++ (contextOf msgs files).2

/-- Abbreviation: the user message appended at lines 146-148. -/
def userTurnFiles (fmt : String → List ContentItem) (msgs : List Msg)
    (files : List UploadedFile) (p : String) : Msg :=
  { role := Role.user, content := MsgContent.parts (fpOf fmt msgs files p),
    images := some (builderOut msgs files).2 }

/-- Abbreviation: the user message appended at line 153. -/
def userTurnPlain (fmt : String → List ContentItem) (p : String) : Msg :=
  { role := Role.user, content := MsgContent.parts (fmt p), images := none }

/-- Abbreviation: the assistant message appended at lines 166-167. -/
def assistantTurn (r : String) : Msg :=
  { role := Role.assistant, content := MsgContent.text r, images := none }

end ChatReview

namespace ChatReview

/-! ### Helper lemmas -/

theorem strAppend_assoc (a b c : String) : a ++ b ++ c = a ++ (b ++ c) :=
  String.ext (by simp)

theorem messageImagesList_append (a b : List Msg) :
    messageImagesList (a ++ b) = messageImagesList a ++ messageImagesList b := by
  induction a with
  | nil => simp [messageImagesList]
  | cons m rest ih => simp [messageImagesList, ih]

theorem userImages_user_some (c : MsgContent) (l : List Nat) :
    userImages { role := Role.user, content := c, images := some l } = l := by
  cases l <;> simp [userImages]

theorem userImages_assistant (c : MsgContent) (i : Option (List Nat)) :
    userImages { role := Role.assistant, content := c, images := i } = [] := by
  cases i <;> simp [userImages]

theorem assistantCount_append (a b : List Msg) :
    assistantCount (a ++ b) = assistantCount a + assistantCount b := by
  induction a with
  | nil => simp [assistantCount]
  | cons m rest ih => simp [assistantCount, ih]; omega

theorem promptTruthy_some_iff (p : String) : promptTruthy (some p) = true ↔ p ≠ "" := by
  simp [promptTruthy, ← String.isEmpty_iff]

theorem lastRole_concat (l : List Msg) (m : Msg) : lastRole (l ++ [m]) = some m.role := by
  simp [lastRole, List.getLast?_concat]

theorem partitionLoop_spec (items : List ContentItem) :
    ∀ ct ci, partitionLoop items ct ci =
      (ct ++ contextTextSpec items, ci ++ contextImagesSpec items) := by
  induction items with
  | nil => intro ct ci; simp [partitionLoop, contextTextSpec, contextImagesSpec]
  | cons i rest ih =>
    intro ct ci
    cases i with
    | text s =>
      simp [partitionLoop, contextTextSpec, contextImagesSpec, ih, strAppend_assoc]
    | image id payload =>
      simp [partitionLoop, contextTextSpec, contextImagesSpec, ih, List.filter_cons]

/-! ### Branch characterisations of `cycleSteps` (spec steps 1-4) -/

theorem cycleSteps_guard_prompt (fmt : String → List ContentItem) (msgs : List Msg)
    (p : String) (files : List UploadedFile) (hg : guardHolds msgs files) (hp : p ≠ "") :
    cycleSteps fmt msgs (some p) files =
      (msgs ++ [userTurnFiles fmt msgs files p], some (files, messageImagesList msgs),
       some (effOf msgs files p), some (fpOf fmt msgs files p)) := by
  have hpt : promptTruthy (some p) = true := (promptTruthy_some_iff p).mpr hp
  simp only [cycleSteps]
  rw [if_pos (show files ≠ [] ∧ (messageImagesList msgs).length < files.length from hg),
    if_pos hpt]
  rfl

theorem cycleSteps_guard_noprompt (fmt : String → List ContentItem) (msgs : List Msg)
    (prompt : Option String) (files : List UploadedFile) (hg : guardHolds msgs files)
    (hp : promptTruthy prompt = false) :
    cycleSteps fmt msgs prompt files = (msgs, some (files, messageImagesList msgs), none, none) := by
  simp only [cycleSteps]
  rw [if_pos (show files ≠ [] ∧ (messageImagesList msgs).length < files.length from hg),
    if_neg (by simp [hp])]

theorem cycleSteps_noguard_prompt (fmt : String → List ContentItem) (msgs : List Msg)
    (p : String) (files : List UploadedFile) (hg : ¬ guardHolds msgs files) (hp : p ≠ "") :
    cycleSteps fmt msgs (some p) files =
      (msgs ++ [userTurnPlain fmt p], none, some p, some (fmt p)) := by
  have hpt : promptTruthy (some p) = true := (promptTruthy_some_iff p).mpr hp
  simp only [cycleSteps]
  rw [if_neg (show ¬(files ≠ [] ∧ (messageImagesList msgs).length < files.length) from hg),
    if_pos hpt]
  rfl

theorem cycleSteps_noguard_noprompt (fmt : String → List ContentItem) (msgs : List Msg)
    (prompt : Option String) (files : List UploadedFile) (hg : ¬ guardHolds msgs files)
    (hp : promptTruthy prompt = false) :
    cycleSteps fmt msgs prompt files = (msgs, none, none, none) := by
  simp only [cycleSteps]
  rw [if_neg (show ¬(files ≠ [] ∧ (messageImagesList msgs).length < files.length) from hg),
    if_neg (by simp [hp])]

/-! ### Branch characterisations of `dispatch` (lines 161-167) -/

theorem dispatch_assistant (respond : List ContentItem → Option String)
    (step : List Msg × Option (List UploadedFile × List Nat) × Option String ×
      Option (List ContentItem))
    (h : lastRole step.1 = some Role.assistant) :
    dispatch respond step =
      { messages := step.1, preDispatch := step.1, builderArgs := step.2.1,
        effectiveInput := step.2.2.1, formattedPrompt := step.2.2.2, dispatched := false,
        modelCalls := 0, crashed := false, modelFailed := false } := by
  obtain ⟨m, hm, hrole⟩ : ∃ m, step.1.getLast? = some m ∧ m.role = Role.assistant := by
    cases hl : step.1.getLast? with
    | none => simp [lastRole, hl] at h
    | some m => exact ⟨m, rfl, by simpa [lastRole, hl] using h⟩
  simp only [dispatch, hm]
  rw [if_neg (by simp [hrole])]

theorem dispatch_user_crash (respond : List ContentItem → Option String)
    (step : List Msg × Option (List UploadedFile × List Nat) × Option String ×
      Option (List ContentItem))
    (h : lastRole step.1 = some Role.user) (hfp : step.2.2.2 = none) :
    dispatch respond step =
      { messages := step.1, preDispatch := step.1, builderArgs := step.2.1,
        effectiveInput := step.2.2.1, formattedPrompt := step.2.2.2, dispatched := true,
        modelCalls := 0, crashed := true, modelFailed := false } := by
  obtain ⟨m, hm, hrole⟩ : ∃ m, step.1.getLast? = some m ∧ m.role = Role.user := by
    cases hl : step.1.getLast? with
    | none => simp [lastRole, hl] at h
    | some m => exact ⟨m, rfl, by simpa [lastRole, hl] using h⟩
  simp only [dispatch, hm, hfp]
  rw [if_pos (by simp [hrole])]

theorem dispatch_user_fail (respond : List ContentItem → Option String)
    (step : List Msg × Option (List UploadedFile × List Nat) × Option String ×
      Option (List ContentItem)) (f : List ContentItem)
    (h : lastRole step.1 = some Role.user) (hfp : step.2.2.2 = some f)
    (hr : respond f = none) :
    dispatch respond step =
      { messages := step.1, preDispatch := step.1, builderArgs := step.2.1,
        effectiveInput := step.2.2.1, formattedPrompt := step.2.2.2, dispatched := true,
        modelCalls := 1, crashed := false, modelFailed := true } := by
  obtain ⟨m, hm, hrole⟩ : ∃ m, step.1.getLast? = some m ∧ m.role = Role.user := by
    cases hl : step.1.getLast? with
    | none => simp [lastRole, hl] at h
    | some m => exact ⟨m, rfl, by simpa [lastRole, hl] using h⟩
  simp only [dispatch, hm, hfp]
  rw [if_pos (by simp [hrole])]
  simp [hr]

theorem dispatch_user_ok (respond : List ContentItem → Option String)
    (step : List Msg × Option (List UploadedFile × List Nat) × Option String ×
      Option (List ContentItem)) (f : List ContentItem) (r : String)
    (h : lastRole step.1 = some Role.user) (hfp : step.2.2.2 = some f)
    (hr : respond f = some r) :
    dispatch respond step =
      { messages := step.1 ++ [assistantTurn r], preDispatch := step.1,
        builderArgs := step.2.1, effectiveInput := step.2.2.1, formattedPrompt := step.2.2.2,
        dispatched := true, modelCalls := 1, crashed := false, modelFailed := false } := by
  obtain ⟨m, hm, hrole⟩ : ∃ m, step.1.getLast? = some m ∧ m.role = Role.user := by
    cases hl : step.1.getLast? with
    | none => simp [lastRole, hl] at h
    | some m => exact ⟨m, rfl, by simpa [lastRole, hl] using h⟩
  simp only [dispatch, hm, hfp]
  rw [if_pos (by simp [hrole])]
  simp [hr, assistantTurn]


/-! ### Projections and shape of `dispatch` -/

theorem dispatch_builderArgs (respond : List ContentItem → Option String)
    (step : List Msg × Option (List UploadedFile × List Nat) × Option String ×
      Option (List ContentItem)) :
    (dispatch respond step).builderArgs = step.2.1 := by
  simp only [dispatch]
  split
  · rfl
  · split
    · split
      · rfl
      · split <;> rfl
    · rfl

theorem dispatch_effectiveInput (respond : List ContentItem → Option String)
    (step : List Msg × Option (List UploadedFile × List Nat) × Option String ×
      Option (List ContentItem)) :
    (dispatch respond step).effectiveInput = step.2.2.1 := by
  simp only [dispatch]
  split
  · rfl
  · split
    · split
      · rfl
      · split <;> rfl
    · rfl

theorem dispatch_preDispatch (respond : List ContentItem → Option String)
    (step : List Msg × Option (List UploadedFile × List Nat) × Option String ×
      Option (List ContentItem)) :
    (dispatch respond step).preDispatch = step.1 := by
  simp only [dispatch]
  split
  · rfl
  · split
    · split
      · rfl
      · split <;> rfl
    · rfl

theorem dispatch_messages_shape (respond : List ContentItem → Option String)
    (step : List Msg × Option (List UploadedFile × List Nat) × Option String ×
      Option (List ContentItem)) :
    (dispatch respond step).messages = step.1 ∨
      ∃ r, (dispatch respond step).messages = step.1 ++ [assistantTurn r] := by
  simp only [dispatch]
  split
  · exact Or.inl rfl
  · split
    · split
      · exact Or.inl rfl
      · split
        · exact Or.inl rfl
        · exact Or.inr ⟨_, rfl⟩
    · exact Or.inl rfl

theorem cycleSteps_fst_shape (fmt : String → List ContentItem) (msgs : List Msg)
    (prompt : Option String) (files : List UploadedFile) :
    ∃ t, (cycleSteps fmt msgs prompt files).1 = msgs ++ t := by
  simp only [cycleSteps]
  split
  · split
    · exact ⟨_, rfl⟩
    · exact ⟨[], by simp⟩
  · split
    · exact ⟨_, rfl⟩
    · exact ⟨[], by simp⟩

theorem runCycle_messages_append (fmt : String → List ContentItem)
    (respond : List ContentItem → Option String) (msgs : List Msg) (prompt : Option String)
    (files : List UploadedFile) :
    ∃ t, (runCycle fmt respond msgs prompt files).messages = msgs ++ t := by
  obtain ⟨t1, h1⟩ := cycleSteps_fst_shape fmt msgs prompt files
  rcases dispatch_messages_shape respond (cycleSteps fmt msgs prompt files) with h | ⟨r, h⟩
  · exact ⟨t1, by rw [show runCycle fmt respond msgs prompt files =
      dispatch respond (cycleSteps fmt msgs prompt files) from rfl, h, h1]⟩
  · exact ⟨t1 ++ [assistantTurn r], by
      rw [show runCycle fmt respond msgs prompt files =
        dispatch respond (cycleSteps fmt msgs prompt files) from rfl, h, h1, List.append_assoc]⟩

theorem runCycles_messages_append (fmt : String → List ContentItem) (msgs : List Msg)
    (inputs : List CycleInput) :
    ∃ t, runCycles fmt msgs inputs = msgs ++ t := by
  induction inputs generalizing msgs with
  | nil => exact ⟨[], by simp [runCycles]⟩
  | cons i rest ih =>
    obtain ⟨t1, h1⟩ := runCycle_messages_append fmt i.respond msgs i.prompt i.files
    obtain ⟨t2, h2⟩ := ih (runCycle fmt i.respond msgs i.prompt i.files).messages
    exact ⟨t1 ++ t2, by rw [runCycles, h2, h1, List.append_assoc]⟩

theorem promptTruthy_eq_true_iff (prompt : Option String) :
    promptTruthy prompt = true ↔ ∃ p, prompt = some p ∧ p ≠ "" := by
  cases prompt with
  | none => simp [promptTruthy]
  | some p => simp [promptTruthy_some_iff p]

theorem assistantCount_user_append (msgs : List Msg) (m : Msg) (h : m.role = Role.user) :
    assistantCount (msgs ++ [m]) = assistantCount msgs := by
  rw [assistantCount_append]
  simp [assistantCount, h]

theorem assistantCount_assistant_append (msgs : List Msg) (r : String) :
    assistantCount (msgs ++ [assistantTurn r]) = assistantCount msgs + 1 := by
  rw [assistantCount_append]
  simp [assistantCount, assistantTurn]


/-! ### Claim C8 -/

/-- C8: the loop of lines 132-138 partitions the content items returned by
the File Context Builder so that `context_text` is the concatenation of all
text items in order, each followed by a blank line, and `context_image` is
the subsequence of image items with their relative order preserved. -/
theorem c8_partition (content_files : List ContentItem) :
    partitionContent content_files =
      (contextTextSpec content_files, contextImagesSpec content_files) := by
  simp [partitionContent, partitionLoop_spec]

/-! ### Claim C10 -/

set_option maxRecDepth 8192 in
/-- C10: for every option offered by the radio selector (line 36),
`define_system_prompt` returns one of exactly three fixed, pairwise
distinct, non-empty instruction strings; the empty-string fallback branch
is not reached from any selector option. -/
theorem c10_system_prompt (opt : String) (h : opt ∈ radioOptions) :
    define_system_prompt opt ≠ "" ∧
      (define_system_prompt opt = define_system_prompt "Summarize" ∨
        define_system_prompt opt = define_system_prompt "Analyze" ∨
        define_system_prompt opt = define_system_prompt "Recommend") ∧
      [define_system_prompt "Summarize", define_system_prompt "Analyze",
        define_system_prompt "Recommend"].Nodup := by
  fin_cases h <;> exact ⟨by decide, by decide, by decide⟩

set_option maxRecDepth 8192 in
/-- Witness for C10 at the concrete option `"Summarize"`. -/
theorem c10_system_prompt_witness :
    "Summarize" ∈ radioOptions ∧
      (define_system_prompt "Summarize" ≠ "" ∧
        (define_system_prompt "Summarize" = define_system_prompt "Summarize" ∨
          define_system_prompt "Summarize" = define_system_prompt "Analyze" ∨
          define_system_prompt "Summarize" = define_system_prompt "Recommend") ∧
        [define_system_prompt "Summarize", define_system_prompt "Analyze",
          define_system_prompt "Recommend"].Nodup) :=
  ⟨by decide, c10_system_prompt "Summarize" (by decide)⟩

/-! ### Claim C2 -/

/-- C2 counterexample: at the claim's concrete inputs the effective input
built by lines 140-143 is not the string the claim specifies — line 141
puts a space between `you:` and the first newline. -/
theorem c2_counterexample :
    promptNew "Great battery life.\n\n" "What do people say?" ≠
      "Here is some context for you:\n<context>\nGreat battery life.\n\n</context>\n\nWhat do people say?" ∧
    promptNew "Great battery life.\n\n" "What do people say?" =
      "Here is some context for you: \n<context>\nGreat battery life.\n\n</context>\n\nWhat do people say?" :=
  ⟨by decide, by decide⟩

/-- C2 (amended): for every non-empty rawUserInput and non-empty extracted
contextText, the effective input handed to the Prompt Formatter equals
`"Here is some context for you: \n<context>\n" ++ contextText ++
"</context>\n\n" ++ rawUserInput` — with a space between the colon and the
first newline, unlike the claim's string. -/
theorem c2_context_wrapping (fmt : String → List ContentItem)
    (respond : List ContentItem → Option String) (msgs : List Msg) (p : String)
    (files : List UploadedFile) (hg : guardHolds msgs files) (hp : p ≠ "")
    (hctx : (contextOf msgs files).1 ≠ "") :
    (runCycle fmt respond msgs (some p) files).effectiveInput =
      some ("Here is some context for you: \n<context>\n" ++ (contextOf msgs files).1 ++
        "</context>\n\n" ++ p) := by
  have hstep := cycleSteps_guard_prompt fmt msgs p files hg hp
  rw [show runCycle fmt respond msgs (some p) files =
    dispatch respond (cycleSteps fmt msgs (some p) files) from rfl,
    dispatch_effectiveInput, hstep]
  simp [effOf, promptNew, hctx]

/-- Witness for C2 (amended): one text file whose extracted text is
`"Great battery life."`, with the claim's raw user input. -/
theorem c2_context_wrapping_witness :
    guardHolds initMessages [⟨1, ContentItem.text "Great battery life."⟩] ∧
    (contextOf initMessages [⟨1, ContentItem.text "Great battery life."⟩]).1 ≠ "" ∧
    (runCycle fmtSample respondOk initMessages (some "What do people say?")
        [⟨1, ContentItem.text "Great battery life."⟩]).effectiveInput =
      some ("Here is some context for you: \n<context>\n" ++
        (contextOf initMessages [⟨1, ContentItem.text "Great battery life."⟩]).1 ++
        "</context>\n\n" ++ "What do people say?") :=
  ⟨by decide, by decide,
    c2_context_wrapping fmtSample respondOk initMessages "What do people say?"
      [⟨1, ContentItem.text "Great battery life."⟩] (by decide) (by decide) (by decide)⟩

/-! ### Claim C7 -/

/-- C7 counterexample: a cycle with one attached image file and no
extractable text passes the raw input through unwrapped, yet the appended
user Turn's file-id list is `[1]`, not empty. -/
theorem c7_counterexample :
    (runCycle fmtSample respondOk initMessages (some "hi")
        [⟨1, ContentItem.image 1 "img"⟩]).effectiveInput = some "hi" ∧
    ((runCycle fmtSample respondOk initMessages (some "hi")
        [⟨1, ContentItem.image 1 "img"⟩]).preDispatch.getLast?.map Msg.images) =
      some (some [1]) ∧
    some (some [1]) ≠ some (some ([] : List Nat)) :=
  ⟨by decide, by decide, by decide⟩

/-- C7 (amended): for a non-empty rawUserInput, (a) when no files are
attached the effective input is the raw input unwrapped and the appended
user Turn carries no file ids; (b) when attached files are processed but no
text context is extracted, the effective input is still the raw input
unwrapped — but the appended Turn records the processed file ids, which
need not be empty. -/
theorem c7_passthrough (fmt : String → List ContentItem)
    (respond : List ContentItem → Option String) (msgs : List Msg) (p : String)
    (hp : p ≠ "") :
    ((runCycle fmt respond msgs (some p) []).effectiveInput = some p ∧
      (runCycle fmt respond msgs (some p) []).preDispatch =
        msgs ++ [userTurnPlain fmt p] ∧
      (userTurnPlain fmt p).images = none) ∧
    (∀ files, guardHolds msgs files → (contextOf msgs files).1 = "" →
      (runCycle fmt respond msgs (some p) files).effectiveInput = some p) := by
  constructor
  · have hg : ¬ guardHolds msgs [] := by simp [guardHolds]
    have hstep := cycleSteps_noguard_prompt fmt msgs p [] hg hp
    rw [show runCycle fmt respond msgs (some p) [] =
      dispatch respond (cycleSteps fmt msgs (some p) []) from rfl,
      dispatch_effectiveInput, dispatch_preDispatch, hstep]
    exact ⟨rfl, rfl, rfl⟩
  · intro files hg hctx
    have hstep := cycleSteps_guard_prompt fmt msgs p files hg hp
    rw [show runCycle fmt respond msgs (some p) files =
      dispatch respond (cycleSteps fmt msgs (some p) files) from rfl,
      dispatch_effectiveInput, hstep]
    simp [effOf, promptNew, hctx]

/-- Witness for C7 (amended) at raw input `"hi"` with no files, and with
one image file for the second part. -/
theorem c7_passthrough_witness :
    ("hi" ≠ "") ∧
    ((runCycle fmtSample respondOk initMessages (some "hi") []).effectiveInput = some "hi" ∧
      (runCycle fmtSample respondOk initMessages (some "hi") []).preDispatch =
        initMessages ++ [userTurnPlain fmtSample "hi"] ∧
      (userTurnPlain fmtSample "hi").images = none) ∧
    guardHolds initMessages [⟨1, ContentItem.image 1 "img"⟩] ∧
    (contextOf initMessages [⟨1, ContentItem.image 1 "img"⟩]).1 = "" ∧
    (runCycle fmtSample respondOk initMessages (some "hi")
        [⟨1, ContentItem.image 1 "img"⟩]).effectiveInput = some "hi" :=
  ⟨by decide,
    (c7_passthrough fmtSample respondOk initMessages "hi" (by decide)).1,
    by decide, by decide,
    (c7_passthrough fmtSample respondOk initMessages "hi" (by decide)).2
      [⟨1, ContentItem.image 1 "img"⟩] (by decide) (by decide)⟩

/-! ### Claim C5 -/

/-- C5 counterexample: after files 1 and 2 were folded into a user Turn, a
cycle whose selection is only the new file 3 has a non-empty unprocessed
subset, yet the guard of line 125 (`len(message_images_list) <
len(uploaded_files)`) is false and the File Context Builder is not
invoked. -/
theorem c5_counterexample :
    (([⟨3, ContentItem.text "c"⟩] : List UploadedFile).filter
        (fun f => !((messageImagesList
          (runCycle fmtSample respondOk initMessages (some "hi")
            [⟨1, ContentItem.text "a"⟩, ⟨2, ContentItem.text "b"⟩]).messages).contains f.id))) ≠ [] ∧
    (runCycle fmtSample respondOk
        (runCycle fmtSample respondOk initMessages (some "hi")
          [⟨1, ContentItem.text "a"⟩, ⟨2, ContentItem.text "b"⟩]).messages
        (some "go") [⟨3, ContentItem.text "c"⟩]).builderArgs = none :=
  ⟨by decide, by decide⟩

/-- C5 (amended): the controller invokes the File Context Builder in a
cycle exactly when the selection is non-empty and the number of file ids
already folded into user Turns is strictly smaller than the number of
selected files; when it does, the builder receives the full selection and
that id list.  A non-empty unprocessed subset alone does not trigger it. -/
theorem c5_builder_trigger (fmt : String → List ContentItem)
    (respond : List ContentItem → Option String) (msgs : List Msg) (prompt : Option String)
    (files : List UploadedFile) :
    ((runCycle fmt respond msgs prompt files).builderArgs.isSome = true ↔
      guardHolds msgs files) ∧
    ((runCycle fmt respond msgs prompt files).builderArgs.isSome = true →
      (runCycle fmt respond msgs prompt files).builderArgs =
        some (files, messageImagesList msgs)) := by
  rw [show runCycle fmt respond msgs prompt files =
    dispatch respond (cycleSteps fmt msgs prompt files) from rfl, dispatch_builderArgs]
  by_cases hg : guardHolds msgs files
  · by_cases hpt : promptTruthy prompt = true
    · obtain ⟨p, rfl, hp⟩ := (promptTruthy_eq_true_iff prompt).mp hpt
      rw [cycleSteps_guard_prompt fmt msgs p files hg hp]
      simp [hg]
    · rw [cycleSteps_guard_noprompt fmt msgs prompt files hg (by simpa using hpt)]
      simp [hg]
  · by_cases hpt : promptTruthy prompt = true
    · obtain ⟨p, rfl, hp⟩ := (promptTruthy_eq_true_iff prompt).mp hpt
      rw [cycleSteps_noguard_prompt fmt msgs p files hg hp]
      simp [hg]
    · rw [cycleSteps_noguard_noprompt fmt msgs prompt files hg (by simpa using hpt)]
      simp [hg]

/-- Witness for C5 (amended) at a concrete fresh upload. -/
theorem c5_builder_trigger_witness :
    ((runCycle fmtSample respondOk initMessages (some "hi")
        [⟨1, ContentItem.text "a"⟩]).builderArgs.isSome = true ↔
      guardHolds initMessages [⟨1, ContentItem.text "a"⟩]) ∧
    ((runCycle fmtSample respondOk initMessages (some "hi")
        [⟨1, ContentItem.text "a"⟩]).builderArgs.isSome = true →
      (runCycle fmtSample respondOk initMessages (some "hi")
          [⟨1, ContentItem.text "a"⟩]).builderArgs =
        some ([⟨1, ContentItem.text "a"⟩], messageImagesList initMessages)) :=
  c5_builder_trigger fmtSample respondOk initMessages (some "hi") [⟨1, ContentItem.text "a"⟩]


/-! ### Further dispatch characterisations -/

theorem dispatch_nil (respond : List ContentItem → Option String)
    (step : List Msg × Option (List UploadedFile × List Nat) × Option String ×
      Option (List ContentItem)) (h : step.1.getLast? = none) :
    dispatch respond step =
      { messages := step.1, preDispatch := step.1, builderArgs := step.2.1,
        effectiveInput := step.2.2.1, formattedPrompt := step.2.2.2, dispatched := false,
        modelCalls := 0, crashed := true, modelFailed := false } := by
  simp only [dispatch, h]

theorem lastRole_of_getLast (msgs : List Msg) (m : Msg) (h : msgs.getLast? = some m) :
    lastRole msgs = some m.role := by
  simp [lastRole, h]

/-! ### Claim C1 -/

/-- C1 counterexample: after a failed invocation left an unanswered user
Turn, the next cycle with no new input ends steps 1-4 with the last Turn a
user Turn, yet performs no Model Client invocation (line 164 fails before
the call) — the claim's "an invocation occurs exactly when the last Turn's
role is user" does not hold of that cycle. -/
theorem c1_counterexample :
    lastRole (runCycle fmtSample respondOk
        (runCycle fmtSample respondFail initMessages (some "hi") []).messages
        none []).preDispatch = some Role.user ∧
    (runCycle fmtSample respondOk
        (runCycle fmtSample respondFail initMessages (some "hi") []).messages
        none []).modelCalls = 0 :=
  ⟨by decide, by decide⟩

/-- C1 (amended): every cycle invokes the Model Client at most once, and
never when the last Turn after steps 1-4 is an assistant Turn; moreover in
every cycle that starts with the transcript's last Turn being an assistant
Turn (the steady state), an invocation occurs exactly when the last Turn
after steps 1-4 is a user Turn.  (A cycle starting with an unanswered user
Turn and assigning no new formatted prompt crashes at line 164 without
invoking, so the unconditional "exactly when" of the claim fails there.) -/
theorem c1_at_most_one_dispatch (fmt : String → List ContentItem)
    (respond : List ContentItem → Option String) (msgs : List Msg) (prompt : Option String)
    (files : List UploadedFile) :
    ((runCycle fmt respond msgs prompt files).modelCalls ≤ 1 ∧
      (lastRole (runCycle fmt respond msgs prompt files).preDispatch = some Role.assistant →
        (runCycle fmt respond msgs prompt files).modelCalls = 0)) ∧
    (lastRole msgs = some Role.assistant →
      ((runCycle fmt respond msgs prompt files).modelCalls = 1 ↔
        lastRole (runCycle fmt respond msgs prompt files).preDispatch = some Role.user)) := by
  rw [show runCycle fmt respond msgs prompt files =
    dispatch respond (cycleSteps fmt msgs prompt files) from rfl]
  by_cases hpt : promptTruthy prompt = true
  · obtain ⟨p, rfl, hp⟩ := (promptTruthy_eq_true_iff prompt).mp hpt
    by_cases hg : guardHolds msgs files
    · rw [cycleSteps_guard_prompt fmt msgs p files hg hp]
      have hlast : lastRole (msgs ++ [userTurnFiles fmt msgs files p]) = some Role.user := by
        simpa [userTurnFiles] using lastRole_concat msgs (userTurnFiles fmt msgs files p)
      cases hr : respond (fpOf fmt msgs files p) with
      | none =>
        rw [dispatch_user_fail respond _ _ hlast rfl hr]
        simp [hlast]
      | some r =>
        rw [dispatch_user_ok respond _ _ r hlast rfl hr]
        simp [hlast]
    · rw [cycleSteps_noguard_prompt fmt msgs p files hg hp]
      have hlast : lastRole (msgs ++ [userTurnPlain fmt p]) = some Role.user := by
        simpa [userTurnPlain] using lastRole_concat msgs (userTurnPlain fmt p)
      cases hr : respond (fmt p) with
      | none =>
        rw [dispatch_user_fail respond _ _ hlast rfl hr]
        simp [hlast]
      | some r =>
        rw [dispatch_user_ok respond _ _ r hlast rfl hr]
        simp [hlast]
  · have hpf : promptTruthy prompt = false := by simpa using hpt
    have hfst : (cycleSteps fmt msgs prompt files).1 = msgs := by
      by_cases hg : guardHolds msgs files
      · rw [cycleSteps_guard_noprompt fmt msgs prompt files hg hpf]
      · rw [cycleSteps_noguard_noprompt fmt msgs prompt files hg hpf]
    have hfp : (cycleSteps fmt msgs prompt files).2.2.2 = none := by
      by_cases hg : guardHolds msgs files
      · rw [cycleSteps_guard_noprompt fmt msgs prompt files hg hpf]
      · rw [cycleSteps_noguard_noprompt fmt msgs prompt files hg hpf]
    cases hl : msgs.getLast? with
    | none =>
      rw [dispatch_nil respond _ (by rw [hfst]; exact hl)]
      simp [hfst, lastRole, hl]
    | some m =>
      cases hrole : m.role with
      | user =>
        rw [dispatch_user_crash respond _
          (by rw [hfst]; rw [lastRole_of_getLast msgs m hl, hrole]) hfp]
        simp [hfst, lastRole, hl, hrole]
      | assistant =>
        rw [dispatch_assistant respond _
          (by rw [hfst]; rw [lastRole_of_getLast msgs m hl, hrole])]
        simp [hfst, lastRole, hl, hrole]

/-- Witness for C1 (amended): a steady-state cycle with input `"hi"`, no
files and a successful model call. -/
theorem c1_at_most_one_dispatch_witness :
    ((runCycle fmtSample respondOk initMessages (some "hi") []).modelCalls ≤ 1 ∧
      (lastRole (runCycle fmtSample respondOk initMessages (some "hi") []).preDispatch =
          some Role.assistant →
        (runCycle fmtSample respondOk initMessages (some "hi") []).modelCalls = 0)) ∧
    lastRole initMessages = some Role.assistant ∧
    ((runCycle fmtSample respondOk initMessages (some "hi") []).modelCalls = 1 ↔
      lastRole (runCycle fmtSample respondOk initMessages (some "hi") []).preDispatch =
        some Role.user) :=
  ⟨(c1_at_most_one_dispatch fmtSample respondOk initMessages (some "hi") []).1,
    by decide,
    (c1_at_most_one_dispatch fmtSample respondOk initMessages (some "hi") []).2 (by decide)⟩

/-! ### Claim C4 -/

/-- C4: the claim states the spec's corrected dispatch contract, and the
code violates it (the latent stale-`formatted_prompt` flaw noted in spec
§9).  Failing trace: a cycle whose Model Client invocation fails leaves an
unanswered user Turn; the following cycle with no new input and no files
takes the dispatch branch (last Turn is a user Turn) and evaluates
`formatted_prompt`, which was not assigned during that cycle — in Python
line 164 raises UnboundLocalError, and no invocation occurs. -/
theorem c4_stale_formatted_prompt :
    (runCycle fmtSample respondOk
        (runCycle fmtSample respondFail initMessages (some "hi") []).messages
        none []).dispatched = true ∧
    (runCycle fmtSample respondOk
        (runCycle fmtSample respondFail initMessages (some "hi") []).messages
        none []).formattedPrompt = none ∧
    (runCycle fmtSample respondOk
        (runCycle fmtSample respondFail initMessages (some "hi") []).messages
        none []).crashed = true ∧
    (runCycle fmtSample respondOk
        (runCycle fmtSample respondFail initMessages (some "hi") []).messages
        none []).modelCalls = 0 :=
  ⟨by decide, by decide, by decide, by decide⟩

/-! ### Claim C6 -/

theorem runCycle_prompt_fail (fmt : String → List ContentItem)
    (respond : List ContentItem → Option String) (msgs : List Msg) (p : String)
    (files : List UploadedFile) (hp : p ≠ "") (hr : ∀ x, respond x = none) :
    ∃ m : Msg, m.role = Role.user ∧
      (runCycle fmt respond msgs (some p) files).messages = msgs ++ [m] ∧
      (runCycle fmt respond msgs (some p) files).modelFailed = true ∧
      (runCycle fmt respond msgs (some p) files).modelCalls = 1 := by
  rw [show runCycle fmt respond msgs (some p) files =
    dispatch respond (cycleSteps fmt msgs (some p) files) from rfl]
  by_cases hg : guardHolds msgs files
  · rw [cycleSteps_guard_prompt fmt msgs p files hg hp]
    have hlast : lastRole (msgs ++ [userTurnFiles fmt msgs files p]) = some Role.user := by
      simpa [userTurnFiles] using lastRole_concat msgs (userTurnFiles fmt msgs files p)
    rw [dispatch_user_fail respond _ _ hlast rfl (hr _)]
    exact ⟨userTurnFiles fmt msgs files p, rfl, rfl, rfl, rfl⟩
  · rw [cycleSteps_noguard_prompt fmt msgs p files hg hp]
    have hlast : lastRole (msgs ++ [userTurnPlain fmt p]) = some Role.user := by
      simpa [userTurnPlain] using lastRole_concat msgs (userTurnPlain fmt p)
    rw [dispatch_user_fail respond _ _ hlast rfl (hr _)]
    exact ⟨userTurnPlain fmt p, rfl, rfl, rfl, rfl⟩

theorem runCycle_prompt_ok (fmt : String → List ContentItem)
    (respond : List ContentItem → Option String) (msgs : List Msg) (p : String)
    (files : List UploadedFile) (hp : p ≠ "") (hr : ∀ x, (respond x).isSome = true) :
    ∃ (m : Msg) (r : String), m.role = Role.user ∧
      (runCycle fmt respond msgs (some p) files).messages =
        msgs ++ [m] ++ [assistantTurn r] ∧
      (runCycle fmt respond msgs (some p) files).modelCalls = 1 := by
  rw [show runCycle fmt respond msgs (some p) files =
    dispatch respond (cycleSteps fmt msgs (some p) files) from rfl]
  by_cases hg : guardHolds msgs files
  · rw [cycleSteps_guard_prompt fmt msgs p files hg hp]
    have hlast : lastRole (msgs ++ [userTurnFiles fmt msgs files p]) = some Role.user := by
      simpa [userTurnFiles] using lastRole_concat msgs (userTurnFiles fmt msgs files p)
    obtain ⟨r, hrr⟩ := Option.isSome_iff_exists.mp (hr (fpOf fmt msgs files p))
    rw [dispatch_user_ok respond _ _ r hlast rfl hrr]
    exact ⟨userTurnFiles fmt msgs files p, r, rfl, rfl, rfl⟩
  · rw [cycleSteps_noguard_prompt fmt msgs p files hg hp]
    have hlast : lastRole (msgs ++ [userTurnPlain fmt p]) = some Role.user := by
      simpa [userTurnPlain] using lastRole_concat msgs (userTurnPlain fmt p)
    obtain ⟨r, hrr⟩ := Option.isSome_iff_exists.mp (hr (fmt p))
    rw [dispatch_user_ok respond _ _ r hlast rfl hrr]
    exact ⟨userTurnPlain fmt p, r, rfl, rfl, rfl⟩

/-- C6: if the Model Client invocation fails after a user Turn was
appended, the exception propagates to the UI layer and the transcript keeps
that user Turn and gains no assistant Turn; a later cycle in which the user
resubmits and the model succeeds appends exactly one assistant Turn. -/
theorem c6_failure_isolation (fmt : String → List ContentItem)
    (respond1 respond2 : List ContentItem → Option String) (msgs : List Msg)
    (p p2 : String) (files files2 : List UploadedFile) (hp : p ≠ "") (hp2 : p2 ≠ "")
    (hfail : ∀ x, respond1 x = none) (hok : ∀ x, (respond2 x).isSome = true) :
    (∃ m : Msg, m.role = Role.user ∧
      (runCycle fmt respond1 msgs (some p) files).messages = msgs ++ [m]) ∧
    (runCycle fmt respond1 msgs (some p) files).modelFailed = true ∧
    assistantCount (runCycle fmt respond1 msgs (some p) files).messages =
      assistantCount msgs ∧
    assistantCount (runCycle fmt respond2
        (runCycle fmt respond1 msgs (some p) files).messages (some p2) files2).messages =
      assistantCount (runCycle fmt respond1 msgs (some p) files).messages + 1 ∧
    (runCycle fmt respond2
        (runCycle fmt respond1 msgs (some p) files).messages (some p2) files2).modelCalls = 1 := by
  obtain ⟨m, hrole, hmsg, hfailed, _⟩ :=
    runCycle_prompt_fail fmt respond1 msgs p files hp hfail
  obtain ⟨m2, r2, hrole2, hmsg2, hcalls2⟩ :=
    runCycle_prompt_ok fmt respond2
      (runCycle fmt respond1 msgs (some p) files).messages p2 files2 hp2 hok
  refine ⟨⟨m, hrole, hmsg⟩, hfailed, ?_, ?_, hcalls2⟩
  · rw [hmsg, assistantCount_user_append msgs m hrole]
  · rw [hmsg2, assistantCount_assistant_append, assistantCount_user_append _ m2 hrole2]

/-- Witness for C6: input `"hi"` with a failing model, then a resubmission
`"retry"` with a succeeding model, no files in either cycle. -/
theorem c6_failure_isolation_witness :
    (∃ m : Msg, m.role = Role.user ∧
      (runCycle fmtSample respondFail initMessages (some "hi") []).messages =
        initMessages ++ [m]) ∧
    (runCycle fmtSample respondFail initMessages (some "hi") []).modelFailed = true ∧
    assistantCount (runCycle fmtSample respondFail initMessages (some "hi") []).messages =
      assistantCount initMessages ∧
    assistantCount (runCycle fmtSample respondOk
        (runCycle fmtSample respondFail initMessages (some "hi") []).messages
        (some "retry") []).messages =
      assistantCount (runCycle fmtSample respondFail initMessages (some "hi") []).messages
        + 1 ∧
    (runCycle fmtSample respondOk
        (runCycle fmtSample respondFail initMessages (some "hi") []).messages
        (some "retry") []).modelCalls = 1 :=
  c6_failure_isolation fmtSample respondFail respondOk initMessages "hi" "retry" [] []
    (by decide) (by decide) (fun _ => rfl) (fun _ => rfl)

/-! ### Claim C9 -/

/-- C9: the transcript is seeded with exactly one assistant greeting entry
at session start, every cycle only appends to it, and consequently every
reachable transcript extends the seed and is non-empty — inspecting the
last Turn at line 161 is always defined on reachable states. -/
theorem c9_transcript_append_only (fmt : String → List ContentItem)
    (inputs : List CycleInput) :
    initMessages.map Msg.role = [Role.assistant] ∧
    (∀ (respond : List ContentItem → Option String) (msgs : List Msg)
        (prompt : Option String) (files : List UploadedFile),
      ∃ t, (runCycle fmt respond msgs prompt files).messages = msgs ++ t) ∧
    (∃ t, runCycles fmt initMessages inputs = initMessages ++ t) ∧
    runCycles fmt initMessages inputs ≠ [] := by
  refine ⟨rfl, fun respond msgs prompt files =>
    runCycle_messages_append fmt respond msgs prompt files,
    runCycles_messages_append fmt initMessages inputs, ?_⟩
  obtain ⟨t, ht⟩ := runCycles_messages_append fmt initMessages inputs
  rw [ht]
  simp [initMessages]


/-! ### Claim C3 -/

theorem mil_userTurnFiles (fmt : String → List ContentItem) (msgs : List Msg)
    (files : List UploadedFile) (p : String) :
    messageImagesList (msgs ++ [userTurnFiles fmt msgs files p]) =
      messageImagesList msgs ++ (builderOut msgs files).2 := by
  rw [messageImagesList_append]
  simp [messageImagesList, userTurnFiles, userImages_user_some]

theorem mil_userTurnPlain (fmt : String → List ContentItem) (msgs : List Msg) (p : String) :
    messageImagesList (msgs ++ [userTurnPlain fmt p]) = messageImagesList msgs := by
  rw [messageImagesList_append]
  simp [messageImagesList, userTurnPlain, userImages]

theorem cycle_mil_shape (fmt : String → List ContentItem)
    (respond : List ContentItem → Option String) (msgs : List Msg) (prompt : Option String)
    (files : List UploadedFile) :
    messageImagesList (runCycle fmt respond msgs prompt files).messages =
      messageImagesList (cycleSteps fmt msgs prompt files).1 := by
  rcases dispatch_messages_shape respond (cycleSteps fmt msgs prompt files) with h | ⟨r, h⟩
  · rw [show runCycle fmt respond msgs prompt files =
      dispatch respond (cycleSteps fmt msgs prompt files) from rfl, h]
  · rw [show runCycle fmt respond msgs prompt files =
      dispatch respond (cycleSteps fmt msgs prompt files) from rfl, h,
      messageImagesList_append]
    simp [messageImagesList, userImages_assistant, assistantTurn]

theorem inv_preserved (fmt : String → List ContentItem)
    (respond : List ContentItem → Option String) (prompt : Option String)
    (files : List UploadedFile) (msgs : List Msg)
    (h : messageImagesList msgs = [] ∨
      messageImagesList msgs = files.map (fun f => f.id)) :
    messageImagesList (runCycle fmt respond msgs prompt files).messages = [] ∨
      messageImagesList (runCycle fmt respond msgs prompt files).messages =
        files.map (fun f => f.id) := by
  rw [cycle_mil_shape]
  by_cases hpt : promptTruthy prompt = true
  · obtain ⟨p, rfl, hp⟩ := (promptTruthy_eq_true_iff prompt).mp hpt
    by_cases hg : guardHolds msgs files
    · rw [cycleSteps_guard_prompt fmt msgs p files hg hp]
      rcases h with h0 | hful
      · right
        show messageImagesList (msgs ++ [userTurnFiles fmt msgs files p]) = _
        rw [mil_userTurnFiles, h0]
        simp [builderOut, process_uploaded_files, h0]
      · exfalso
        rcases hg with ⟨_, hlt⟩
        rw [hful, List.length_map] at hlt
        exact lt_irrefl _ hlt
    · rw [cycleSteps_noguard_prompt fmt msgs p files hg hp]
      show messageImagesList (msgs ++ [userTurnPlain fmt p]) = [] ∨ _
      rw [mil_userTurnPlain]
      exact h
  · have hpf : promptTruthy prompt = false := by simpa using hpt
    by_cases hg : guardHolds msgs files
    · rw [cycleSteps_guard_noprompt fmt msgs prompt files hg hpf]
      exact h
    · rw [cycleSteps_noguard_noprompt fmt msgs prompt files hg hpf]
      exact h

theorem folded_stable (fmt : String → List ContentItem)
    (respond : List ContentItem → Option String) (prompt : Option String)
    (files : List UploadedFile) (msgs : List Msg)
    (h : messageImagesList msgs = files.map (fun f => f.id)) :
    (runCycle fmt respond msgs prompt files).builderArgs = none ∧
      messageImagesList (runCycle fmt respond msgs prompt files).messages =
        messageImagesList msgs := by
  have hg : ¬ guardHolds msgs files := by
    rintro ⟨_, hlt⟩
    rw [h, List.length_map] at hlt
    exact lt_irrefl _ hlt
  constructor
  · rw [show runCycle fmt respond msgs prompt files =
      dispatch respond (cycleSteps fmt msgs prompt files) from rfl, dispatch_builderArgs]
    by_cases hpt : promptTruthy prompt = true
    · obtain ⟨p, rfl, hp⟩ := (promptTruthy_eq_true_iff prompt).mp hpt
      rw [cycleSteps_noguard_prompt fmt msgs p files hg hp]
    · rw [cycleSteps_noguard_noprompt fmt msgs prompt files hg (by simpa using hpt)]
  · rw [cycle_mil_shape]
    by_cases hpt : promptTruthy prompt = true
    · obtain ⟨p, rfl, hp⟩ := (promptTruthy_eq_true_iff prompt).mp hpt
      rw [cycleSteps_noguard_prompt fmt msgs p files hg hp]
      exact mil_userTurnPlain fmt msgs p
    · rw [cycleSteps_noguard_noprompt fmt msgs prompt files hg (by simpa using hpt)]

theorem runCycles_inv (fmt : String → List ContentItem) (files : List UploadedFile)
    (inputs : List CycleInput) (hsame : ∀ i ∈ inputs, i.files = files) :
    ∀ msgs : List Msg,
      (messageImagesList msgs = [] ∨
        messageImagesList msgs = files.map (fun f => f.id)) →
      (messageImagesList (runCycles fmt msgs inputs) = [] ∨
        messageImagesList (runCycles fmt msgs inputs) = files.map (fun f => f.id)) := by
  induction inputs with
  | nil => intro msgs h; simpa [runCycles] using h
  | cons i rest ih =>
    intro msgs h
    have hf : i.files = files := hsame i (List.mem_cons_self i rest)
    rw [runCycles]
    refine ih (fun j hj => hsame j (List.mem_cons_of_mem i hj)) _ ?_
    rw [hf]
    exact inv_preserved fmt i.respond i.prompt files msgs h

/-- C3: along any sequence of render cycles with the same uploader
selection (with pairwise distinct ids), the set of file ids folded into
past user Turns is always either empty or exactly the selection's id list,
without duplicates (each file's content is merged at most once, and exactly
once by the first cycle carrying a chat input); it only ever grows by
appending; and once it is non-empty the File Context Builder is never
invoked again and the set never changes. -/
theorem c3_idempotent_uploads (fmt : String → List ContentItem)
    (files : List UploadedFile) (inputs : List CycleInput)
    (hnd : (files.map (fun f => f.id)).Nodup)
    (hsame : ∀ i ∈ inputs, i.files = files) :
    (messageImagesList (runCycles fmt initMessages inputs) = [] ∨
      messageImagesList (runCycles fmt initMessages inputs) =
        files.map (fun f => f.id)) ∧
    (messageImagesList (runCycles fmt initMessages inputs)).Nodup ∧
    (∀ (respond : List ContentItem → Option String) (prompt : Option String),
      ∃ t, messageImagesList
          (runCycle fmt respond (runCycles fmt initMessages inputs) prompt files).messages =
        messageImagesList (runCycles fmt initMessages inputs) ++ t) ∧
    (messageImagesList (runCycles fmt initMessages inputs) ≠ [] →
      ∀ (respond : List ContentItem → Option String) (prompt : Option String),
        (runCycle fmt respond (runCycles fmt initMessages inputs) prompt files).builderArgs =
          none ∧
        messageImagesList
            (runCycle fmt respond (runCycles fmt initMessages inputs) prompt files).messages =
          messageImagesList (runCycles fmt initMessages inputs)) := by
  have hinv := runCycles_inv fmt files inputs hsame initMessages (Or.inl rfl)
  refine ⟨hinv, ?_, ?_, ?_⟩
  · rcases hinv with h | h
    · rw [h]; exact List.nodup_nil
    · rw [h]; exact hnd
  · intro respond prompt
    obtain ⟨t, ht⟩ := runCycle_messages_append fmt respond
      (runCycles fmt initMessages inputs) prompt files
    exact ⟨messageImagesList t, by rw [ht, messageImagesList_append]⟩
  · intro hne respond prompt
    rcases hinv with h | h
    · exact absurd h hne
    · exact folded_stable fmt respond prompt files _ h

/-- Witness for C3: one text file, one cycle with input `"hi"` followed by
one input-less re-render, same selection in both. -/
theorem c3_idempotent_uploads_witness :
    ([⟨1, ContentItem.text "a"⟩].map (fun f : UploadedFile => f.id)).Nodup ∧
    (∀ i ∈ ([⟨some "hi", [⟨1, ContentItem.text "a"⟩], respondOk⟩,
        ⟨none, [⟨1, ContentItem.text "a"⟩], respondOk⟩] : List CycleInput),
      i.files = [⟨1, ContentItem.text "a"⟩]) ∧
    ((messageImagesList (runCycles fmtSample initMessages
        [⟨some "hi", [⟨1, ContentItem.text "a"⟩], respondOk⟩,
          ⟨none, [⟨1, ContentItem.text "a"⟩], respondOk⟩]) = [] ∨
      messageImagesList (runCycles fmtSample initMessages
        [⟨some "hi", [⟨1, ContentItem.text "a"⟩], respondOk⟩,
          ⟨none, [⟨1, ContentItem.text "a"⟩], respondOk⟩]) =
        [⟨1, ContentItem.text "a"⟩].map (fun f : UploadedFile => f.id)) ∧
    (messageImagesList (runCycles fmtSample initMessages
        [⟨some "hi", [⟨1, ContentItem.text "a"⟩], respondOk⟩,
          ⟨none, [⟨1, ContentItem.text "a"⟩], respondOk⟩])).Nodup ∧
    (∀ (respond : List ContentItem → Option String) (prompt : Option String),
      ∃ t, messageImagesList
          (runCycle fmtSample respond (runCycles fmtSample initMessages
            [⟨some "hi", [⟨1, ContentItem.text "a"⟩], respondOk⟩,
              ⟨none, [⟨1, ContentItem.text "a"⟩], respondOk⟩]) prompt
            [⟨1, ContentItem.text "a"⟩]).messages =
        messageImagesList (runCycles fmtSample initMessages
          [⟨some "hi", [⟨1, ContentItem.text "a"⟩], respondOk⟩,
            ⟨none, [⟨1, ContentItem.text "a"⟩], respondOk⟩]) ++ t) ∧
    (messageImagesList (runCycles fmtSample initMessages
        [⟨some "hi", [⟨1, ContentItem.text "a"⟩], respondOk⟩,
          ⟨none, [⟨1, ContentItem.text "a"⟩], respondOk⟩]) ≠ [] →
      ∀ (respond : List ContentItem → Option String) (prompt : Option String),
        (runCycle fmtSample respond (runCycles fmtSample initMessages
            [⟨some "hi", [⟨1, ContentItem.text "a"⟩], respondOk⟩,
              ⟨none, [⟨1, ContentItem.text "a"⟩], respondOk⟩]) prompt
            [⟨1, ContentItem.text "a"⟩]).builderArgs = none ∧
        messageImagesList
            (runCycle fmtSample respond (runCycles fmtSample initMessages
              [⟨some "hi", [⟨1, ContentItem.text "a"⟩], respondOk⟩,
                ⟨none, [⟨1, ContentItem.text "a"⟩], respondOk⟩]) prompt
              [⟨1, ContentItem.text "a"⟩]).messages =
          messageImagesList (runCycles fmtSample initMessages
            [⟨some "hi", [⟨1, ContentItem.text "a"⟩], respondOk⟩,
              ⟨none, [⟨1, ContentItem.text "a"⟩], respondOk⟩]))) :=
  ⟨by decide,
    by
      intro i hi
      rcases List.mem_cons.mp hi with rfl | hi
      · rfl
      rcases List.mem_cons.mp hi with rfl | hi
      · rfl
      · exact absurd hi (List.not_mem_nil i),
    c3_idempotent_uploads fmtSample [⟨1, ContentItem.text "a"⟩]
      [⟨some "hi", [⟨1, ContentItem.text "a"⟩], respondOk⟩,
        ⟨none, [⟨1, ContentItem.text "a"⟩], respondOk⟩]
      (by decide)
      (by
        intro i hi
        rcases List.mem_cons.mp hi with rfl | hi
        · rfl
        rcases List.mem_cons.mp hi with rfl | hi
        · rfl
        · exact absurd hi (List.not_mem_nil i))⟩

end ChatReview
